import Mathlib

/-!
Shallow embedding of the two scripts of the Simulator repository:
`SimulatorBackend/scripts/generateCases.py` (JSON-to-MongoDB ingestion) and
`jules-scratch/verification/verify_navbar.py` (browser screenshot probe).

Python exceptions are modelled with an explicit `Except`/`Option String`
channel: each function with a `try/except` block is split into a body
(which may produce an error) and a wrapper (which pattern-matches on the
error, mirroring the handler).  Logging via `print` is modelled as an
accumulated list of output lines.  External effects (the file system and
JSON parser, the MongoDB server, the Playwright browser) are modelled as
environment parameters describing which calls raise.
-/

namespace GenerateCases

/-- A parsed Python value as produced by `json.load`: the six JSON kinds. -/
inductive Json where
  | null
  | bool (b : Bool)
  | num (n : Int)
  | str (s : String)
  | arr (elems : List Json)
  | obj (fields : List (String × Json))


/-- Python `len`: defined for `str` (characters), `list` (elements) and
`dict` (keys); raises `TypeError` (modelled as `none`) for `int`, `bool`
and `None`. -/
def pyLen : Json → Option Nat
  | .str s => some s.length
  | .arr elems => some elems.length
  | .obj fields => some fields.length
  | _ => none

/-- Python type name of a value, used in the `TypeError` message of `len`. -/
def pyTypeName : Json → String
  | .null => "NoneType"
  | .bool _ => "bool"
  | .num _ => "int"
  | .str _ => "str"
  | .arr _ => "list"
  | .obj _ => "dict"

/-- Python truthiness of a value: `None`, `False`, `0`, and empty
strings/lists/dicts are falsy, everything else is truthy. -/
def pyTruthy : Json → Bool
  | .null => false
  | .bool b => b
  | .num n => n != 0
  | .str s => s != ""
  | .arr elems => !elems.isEmpty
  | .obj fields => !fields.isEmpty

/-- Python truthiness of an optional value: `none` models Python `None`. -/
def pyTruthyOpt : Option Json → Bool
  | none => false
  | some j => pyTruthy j

/-- Body of `load_cases_from_json` (the inside of the `try` block).  The
combined effect of `open` and `json.load` is the `parseResult` parameter:
`.ok v` when the file exists and parses to the value `v`, `.error e` when
opening or parsing raises an exception with message `e`.  On a parsed
value the success line is printed, where `len(cases)` itself raises a
`TypeError` for a number, boolean or null top-level value. -/
def load_body (parseResult : Except String Json) (file_path : String) :
    List String × Except String Json :=
  match parseResult with
  | .error e => ([], .error e)
  | .ok cases =>
    match pyLen cases with
    | none => ([], .error ("object of type " ++ pyTypeName cases ++ " has no len()"))
    | some n =>
      (["Successfully loaded " ++ toString n ++ " cases from " ++ file_path ++ "."],
       .ok cases)

/-- `load_cases_from_json`: runs the body under `try`; the `except` handler
catches any exception, prints the error message and returns `None`. -/
def load_cases_from_json (parseResult : Except String Json) (file_path : String) :
    List String × Option Json :=
  match load_body parseResult file_path with
  | (logs, .ok cases) => (logs, some cases)
  | (logs, .error e) => (logs ++ ["Error loading JSON file: " ++ e], none)

/-- Behaviour of the external MongoDB client for one script run:
`connectErr` is the exception raised by `MongoClient` (if any), and
`insertErr` the exception raised by `insert_many` together with the number
of documents the server had inserted before failing. -/
structure MongoEnv where
  connectErr : Option String
  insertErr : Option (String × Nat)


/-- `collection.insert_many(cases)`: on a list argument it appends the
documents to the collection and returns the count of inserted ids (one per
document); with `insertErr` set it raises after a partial insert; a
non-list argument raises a `TypeError`. -/
def insert_many (env : MongoEnv) (store : List Json) (cases : Json) :
    List Json × Except String Nat :=
  match cases with
  | .arr docs =>
    match env.insertErr with
    | some ek => (store ++ docs.take ek.2, .error ek.1)
    | none => (store ++ docs, .ok docs.length)
  | other => (store, .error ("documents must be a list, not " ++ pyTypeName other))

/-- Outcome of the body of `push_cases_to_mongodb`: printed lines, the
payload of each `insert_many` call made (database name, collection name,
argument), the final collection contents, and the raised exception if the
body did not finish normally. -/
structure PushBody where
  logs : List String
  calls : List (String × String × Json)
  store : List Json
  exc : Option String


/-- Body of `push_cases_to_mongodb` (the inside of the `try` block):
connect, print, select database and collection, one `insert_many` call,
print the count of inserted ids. -/
def push_body (env : MongoEnv) (store : List Json) (cases : Json)
    (db_name : String) (collection_name : String) : PushBody :=
  match env.connectErr with
  | some e => ⟨[], [], store, some e⟩
  | none =>
    match insert_many env store cases with
    | (store2, .ok n) =>
      ⟨["Connected to MongoDB successfully.",
        "Successfully inserted " ++ toString n ++ " cases into MongoDB."],
       [(db_name, collection_name, cases)], store2, none⟩
    | (store2, .error e) =>
      ⟨["Connected to MongoDB successfully."],
       [(db_name, collection_name, cases)], store2, some e⟩

/-- Result of `push_cases_to_mongodb`: the function itself returns nothing;
observable are the printed lines, the `insert_many` calls made and the
final collection contents.  There is no exception channel: the wrapper
never raises. -/
structure PushResult where
  logs : List String
  calls : List (String × String × Json)
  store : List Json


/-- `push_cases_to_mongodb`: runs the body under `try`; the `except`
handler catches any exception and prints the error message.  Nothing is
retried, rolled back or re-raised. -/
def push_cases_to_mongodb (env : MongoEnv) (store : List Json) (cases : Json)
    (mongo_uri : String) (db_name : String) (collection_name : String) : PushResult :=
  let b := push_body env store cases db_name collection_name
  match b.exc with
  | none => ⟨b.logs, b.calls, b.store⟩
  | some e => ⟨b.logs ++ ["Error inserting cases into MongoDB: " ++ e], b.calls, b.store⟩

/-- The configuration constants of the `__main__` block. -/
def MONGO_URI : String := "mongodb://localhost:27017/simulator"

/-- Database name constant of the `__main__` block. -/
def DB_NAME : String := "test"

/-- Collection name constant of the `__main__` block. -/
def COLLECTION_NAME : String := "cases"

/-- Input file path constant of the `__main__` block. -/
def JSON_FILE_PATH : String := "..\\cases\\case_100.json"

/-- Observable outcome of one run of the `__main__` block. -/
structure MainResult where
  logs : List String
  pushCalled : Bool
  pushArg : Option Json
  calls : List (String × String × Json)
  store : List Json


/-- The `__main__` block: load the cases, and `if cases:` push them.  The
result is wrapped in `Except` so that an exception escaping the top level
of the script (which would make the process exit non-zero) would show up
as `.error`; both called functions swallow their exceptions, so every
branch ends in `.ok`. -/
def mainExcept (parseResult : Except String Json) (env : MongoEnv)
    (store : List Json) : Except String MainResult :=
  let load := load_cases_from_json parseResult JSON_FILE_PATH
  match load.2 with
  | some c =>
    if pyTruthy c then
      let p := push_cases_to_mongodb env store c MONGO_URI DB_NAME COLLECTION_NAME
      .ok ⟨load.1 ++ p.logs, true, some c, p.calls, p.store⟩
    else
      .ok ⟨load.1, false, none, [], store⟩
  | none => .ok ⟨load.1, false, none, [], store⟩

/-- Process exit status: 0 on a normal return, 1 when an exception escapes
the top level. -/
def exitStatus (r : Except String MainResult) : Nat :=
  match r with
  | .ok _ => 0
  | .error _ => 1

/-- A MongoDB environment in which nothing raises. -/
def envOk : MongoEnv := ⟨none, none⟩

end GenerateCases

namespace VerifyNavbar

/-- Behaviour of the Playwright browser for one run: which of the four
calls (`launch`, `new_page`, `goto`, `screenshot`) raises, and with what
message. -/
structure ProbeEnv where
  launchErr : Option String
  newPageErr : Option String
  gotoErr : Option String
  screenshotErr : Option String

/-- The calls the probe script can perform, in the order they are issued. -/
inductive ProbeEvent where
  | launch
  | newPage
  | goto
  | screenshot
  | close
deriving DecidableEq

/-- The URL the probe navigates to. -/
def NAVBAR_URL : String := "http://localhost:5173/"

/-- The path the screenshot is written to. -/
def SCREENSHOT_PATH : String := "jules-scratch/verification/verification.png"

/-- The `run` function of `verify_navbar.py`: launch a browser, open a
page, then `try: goto; screenshot` with `finally: browser.close()`.  The
first component lists the calls performed in order; the second is `.ok` on
normal completion and `.error e` when an exception propagates out of
`run`.  `launch` and `new_page` happen before the `try` block, so their
exceptions skip the `close`; an exception in `goto` or `screenshot` runs
the `finally` close and is then re-propagated uncaught. -/
def run (env : ProbeEnv) : List ProbeEvent × Except String Unit :=
  match env.launchErr with
  | some e => ([.launch], .error e)
  | none =>
    match env.newPageErr with
    | some e => ([.launch, .newPage], .error e)
    | none =>
      match env.gotoErr with
      | some e => ([.launch, .newPage, .goto, .close], .error e)
      | none =>
        match env.screenshotErr with
        | some e => ([.launch, .newPage, .goto, .screenshot, .close], .error e)
        | none => ([.launch, .newPage, .goto, .screenshot, .close], .ok ())

/-- Exit status of the probe script: the top level just calls `run` inside
the `sync_playwright` context manager, with no exception handler, so an
exception propagating out of `run` crashes the process. -/
def probeExitStatus (env : ProbeEnv) : Nat :=
  match (run env).2 with
  | .ok _ => 0
  | .error _ => 1

end VerifyNavbar

open GenerateCases VerifyNavbar

/-- Helper: the ingestion script's main block always finishes normally,
whatever the parse outcome and store behaviour, so the exit status is 0. -/
theorem exitStatus_mainExcept (parseResult : Except String Json) (env : MongoEnv)
    (store : List Json) : exitStatus (mainExcept parseResult env store) = 0 := by
  rcases h : load_cases_from_json parseResult JSON_FILE_PATH with ⟨logs, c⟩
  cases c with
  | none => simp [mainExcept, h, exitStatus]
  | some c => cases hc : pyTruthy c <;> simp [mainExcept, h, hc, exitStatus]

/-- Claim C1: for every file whose contents parse as a JSON array of N
objects, `load_cases_from_json` returns exactly those N elements, in file
order, with no deduplication or modification, and logs the count N. -/
theorem c1_loader_preserves_array (xs : List Json) (file_path : String) :
    load_cases_from_json (.ok (.arr xs)) file_path =
      (["Successfully loaded " ++ toString xs.length ++ " cases from " ++ file_path ++ "."],
       some (.arr xs)) := rfl

/-- Claim C3: whenever the body of `load_cases_from_json` raises — a
missing file, malformed JSON, an encoding error, or any other exception,
each showing up as an `.error` outcome of the body — the function catches
it, logs the error message after whatever was already printed, and returns
`None`; no exception escapes and no error value other than `None` is
produced. -/
theorem c3_loader_swallows_exceptions (parseResult : Except String Json)
    (file_path e : String) (logs : List String)
    (h : load_body parseResult file_path = (logs, .error e)) :
    load_cases_from_json parseResult file_path =
      (logs ++ ["Error loading JSON file: " ++ e], none) := by
  simp [load_cases_from_json, h]

/-- Witness for C3: a missing input file makes the loader log the error
and return `None`. -/
theorem c3_witness :
    load_cases_from_json (.error "No such file or directory") JSON_FILE_PATH =
      ([] ++ ["Error loading JSON file: " ++ "No such file or directory"], none) :=
  c3_loader_swallows_exceptions (.error "No such file or directory") JSON_FILE_PATH
    "No such file or directory" [] rfl

/-- Claim C10: the loader never checks that the parsed top-level value is
an array: a JSON object or string is returned as-is with its `len` (key
count or character count) logged as the case count, while a top-level
number, boolean or null makes the `len` call raise `TypeError`, which the
handler catches, so `None` is returned. -/
theorem c10_loader_skips_array_validation (fields : List (String × Json))
    (s : String) (n : Int) (b : Bool) (file_path : String) :
    load_cases_from_json (.ok (.obj fields)) file_path =
      (["Successfully loaded " ++ toString fields.length ++ " cases from " ++ file_path ++ "."],
       some (.obj fields)) ∧
    load_cases_from_json (.ok (.str s)) file_path =
      (["Successfully loaded " ++ toString s.length ++ " cases from " ++ file_path ++ "."],
       some (.str s)) ∧
    load_cases_from_json (.ok (.num n)) file_path =
      (["Error loading JSON file: " ++ ("object of type " ++ "int" ++ " has no len()")], none) ∧
    (load_cases_from_json (.ok (.bool b)) file_path).2 = none ∧
    (load_cases_from_json (.ok .null) file_path).2 = none :=
  ⟨rfl, rfl, rfl, rfl, rfl⟩

/-- Counterexample to C2: a file holding the empty JSON array `[]` makes
the loader succeed (it returns the empty list, not `None`), yet the main
block does not call the publisher, so "the publisher is invoked if and
only if loading succeeded" is false. -/
theorem c2_counterexample :
    (load_cases_from_json (.ok (.arr [])) JSON_FILE_PATH).2 = some (.arr []) ∧
    (mainExcept (.ok (.arr [])) envOk []).map MainResult.pushCalled = .ok false :=
  ⟨rfl, rfl⟩

/-- Claim C2 as amended: the main block guards publishing with the Python
truthiness of the loader's result, not with a `None` test: the publisher
is invoked if and only if the loaded value is truthy (non-`None` and
non-empty), and when it is invoked the loader's output is passed directly
as its record input.  In particular a load failure (`None`) skips
publishing, but so does a successful load of an empty collection. -/
theorem c2_push_iff_truthy (parseResult : Except String Json) (env : MongoEnv)
    (store : List Json) :
    (mainExcept parseResult env store).map MainResult.pushCalled =
      .ok (pyTruthyOpt (load_cases_from_json parseResult JSON_FILE_PATH).2) ∧
    (mainExcept parseResult env store).map MainResult.pushArg =
      .ok (if pyTruthyOpt (load_cases_from_json parseResult JSON_FILE_PATH).2
           then (load_cases_from_json parseResult JSON_FILE_PATH).2 else none) := by
  rcases h : load_cases_from_json parseResult JSON_FILE_PATH with ⟨logs, c⟩
  cases c with
  | none => simp [mainExcept, h, pyTruthyOpt, Except.map]
  | some c =>
    cases hc : pyTruthy c <;>
      simp [mainExcept, h, hc, pyTruthyOpt, Except.map]

/-- Claim C4: with a reachable store (neither the connect nor the insert
raises), the publisher makes exactly one bulk-insert call submitting all N
records, the collection gains exactly those N documents, and the count of
inserted identifiers N is logged. -/
theorem c4_push_single_bulk_insert (env : MongoEnv) (store docs : List Json)
    (mongo_uri db_name collection_name : String)
    (hc : env.connectErr = none) (hi : env.insertErr = none) :
    push_cases_to_mongodb env store (.arr docs) mongo_uri db_name collection_name =
      ⟨["Connected to MongoDB successfully.",
        "Successfully inserted " ++ toString docs.length ++ " cases into MongoDB."],
       [(db_name, collection_name, .arr docs)],
       store ++ docs⟩ := by
  simp [push_cases_to_mongodb, push_body, insert_many, hc, hi]

/-- Witness for C4: inserting a one-element collection into an empty,
reachable store performs one call and stores that document. -/
theorem c4_witness :
    push_cases_to_mongodb envOk [] (.arr [Json.null]) MONGO_URI DB_NAME COLLECTION_NAME =
      ⟨["Connected to MongoDB successfully.",
        "Successfully inserted " ++ toString (1 : Nat) ++ " cases into MongoDB."],
       [(DB_NAME, COLLECTION_NAME, .arr [Json.null])],
       [Json.null]⟩ :=
  c4_push_single_bulk_insert envOk [] [Json.null] MONGO_URI DB_NAME COLLECTION_NAME rfl rfl

/-- Claim C5: whenever the body of `push_cases_to_mongodb` raises — a
connection failure, a write error, a duplicate key, a non-list argument,
or any other exception — the function catches it, logs the error message,
and returns normally (its result type has no exception channel): the store
is left exactly as the single attempt left it (no rollback), and at most
one insert call was made (no retry). -/
theorem c5_push_swallows_exceptions (env : MongoEnv) (store : List Json)
    (cases : Json) (mongo_uri db_name collection_name e : String)
    (h : (push_body env store cases db_name collection_name).exc = some e) :
    push_cases_to_mongodb env store cases mongo_uri db_name collection_name =
      ⟨(push_body env store cases db_name collection_name).logs ++
         ["Error inserting cases into MongoDB: " ++ e],
       (push_body env store cases db_name collection_name).calls,
       (push_body env store cases db_name collection_name).store⟩ ∧
    (push_body env store cases db_name collection_name).calls.length ≤ 1 := by
  constructor
  · simp [push_cases_to_mongodb, h]
  · unfold push_body
    split
    · simp
    · split <;> simp

/-- Witness for C5: an unreachable store (the connect raises) makes the
publisher log the error and return normally with nothing inserted. -/
theorem c5_witness :
    push_cases_to_mongodb ⟨some "connection refused", none⟩ [] (.arr [])
        MONGO_URI DB_NAME COLLECTION_NAME =
      ⟨[] ++ ["Error inserting cases into MongoDB: " ++ "connection refused"], [], []⟩ ∧
    ([] : List (String × String × Json)).length ≤ 1 :=
  c5_push_swallows_exceptions ⟨some "connection refused", none⟩ [] (.arr [])
    MONGO_URI DB_NAME COLLECTION_NAME "connection refused" rfl

/-- Claim C6: for every input file outcome and store behaviour, the
ingestion script's main flow completes without any uncaught exception, so
the process exits with status 0 whether or not loading or publishing
failed. -/
theorem c6_main_always_exits_zero (parseResult : Except String Json)
    (env : MongoEnv) (store : List Json) :
    exitStatus (mainExcept parseResult env store) = 0 :=
  exitStatus_mainExcept parseResult env store

/-- Claim C7: a file holding the empty JSON array makes the loader succeed
and return the empty list, yet the publisher is still skipped, because the
main block's `if cases:` truthiness guard conflates the empty collection
with the `None` failure value. -/
theorem c7_empty_array_skips_push (env : MongoEnv) (store : List Json) :
    load_cases_from_json (.ok (.arr [])) JSON_FILE_PATH =
      (["Successfully loaded " ++ toString (0 : Nat) ++ " cases from " ++
          JSON_FILE_PATH ++ "."],
       some (.arr [])) ∧
    (mainExcept (.ok (.arr [])) env store).map MainResult.pushCalled = .ok false :=
  ⟨rfl, rfl⟩

/-- Claim C8: in the browser probe, once the launch and the page creation
have succeeded, `browser.close()` is executed as the last action before
`run` returns or propagates, in every execution — whether `page.goto` and
`page.screenshot` succeed or either of them raises — because the close
sits in the `finally` block. -/
theorem c8_close_always_runs (env : ProbeEnv)
    (h1 : env.launchErr = none) (h2 : env.newPageErr = none) :
    (VerifyNavbar.run env).1.getLast? = some ProbeEvent.close := by
  rcases env with ⟨le, pe, ge, se⟩
  simp only at h1 h2
  subst h1
  subst h2
  cases ge <;> cases se <;> rfl

/-- Witness for C8: a navigation failure still runs the close, as the last
call before the exception propagates. -/
theorem c8_witness :
    (VerifyNavbar.run ⟨none, none, some "net::ERR_CONNECTION_REFUSED", none⟩).1.getLast? =
      some ProbeEvent.close :=
  c8_close_always_runs ⟨none, none, some "net::ERR_CONNECTION_REFUSED", none⟩ rfl rfl

/-- Counterexample to C9: an error in the browser probe is not caught
anywhere — a navigation failure propagates out of `run` uncaught and the
probe process exits non-zero, so "every error arising anywhere in the
repository's scripts is caught ... never re-thrown and never causing a
non-zero exit" is false. -/
theorem c9_counterexample :
    (VerifyNavbar.run ⟨none, none, some "net::ERR_CONNECTION_REFUSED", none⟩).2 =
      .error "net::ERR_CONNECTION_REFUSED" ∧
    probeExitStatus ⟨none, none, some "net::ERR_CONNECTION_REFUSED", none⟩ = 1 :=
  ⟨rfl, rfl⟩

/-- Claim C9 as amended: the log-and-continue policy holds for the
ingestion script, whose main flow always exits 0; the browser probe,
however, catches nothing — its `finally` block only closes the browser and
an exception raised by `page.goto`, or by `page.screenshot` when the
navigation succeeded, propagates uncaught, making the probe process exit
non-zero. -/
theorem c9_ingestion_swallows_probe_propagates (parseResult : Except String Json)
    (menv : MongoEnv) (store : List Json) (penv : ProbeEnv) (e : String)
    (h1 : penv.launchErr = none) (h2 : penv.newPageErr = none)
    (h3 : penv.gotoErr = some e ∨ (penv.gotoErr = none ∧ penv.screenshotErr = some e)) :
    exitStatus (mainExcept parseResult menv store) = 0 ∧
    (VerifyNavbar.run penv).2 = .error e ∧
    probeExitStatus penv = 1 := by
  refine ⟨exitStatus_mainExcept parseResult menv store, ?_, ?_⟩
  · rcases penv with ⟨le, pe, ge, se⟩
    simp only at h1 h2
    subst h1
    subst h2
    rcases h3 with h3 | ⟨h3, h4⟩
    · simp only at h3
      subst h3
      rfl
    · simp only at h3 h4
      subst h3
      subst h4
      rfl
  · rcases penv with ⟨le, pe, ge, se⟩
    simp only at h1 h2
    subst h1
    subst h2
    rcases h3 with h3 | ⟨h3, h4⟩
    · simp only at h3
      subst h3
      rfl
    · simp only at h3 h4
      subst h3
      subst h4
      rfl

/-- Witness for C9 as amended: a failed load still exits 0 in the
ingestion script, while a screenshot failure after a successful navigation
crashes the probe. -/
theorem c9_witness :
    exitStatus (mainExcept (.error "No such file or directory") envOk []) = 0 ∧
    (VerifyNavbar.run ⟨none, none, none, some "screenshot failed"⟩).2 =
      .error "screenshot failed" ∧
    probeExitStatus ⟨none, none, none, some "screenshot failed"⟩ = 1 :=
  c9_ingestion_swallows_probe_propagates (.error "No such file or directory") envOk []
    ⟨none, none, none, some "screenshot failed"⟩ "screenshot failed" rfl rfl
    (Or.inr ⟨rfl, rfl⟩)
